import Mathlib

/-!
# Verification of the FastEstimator `System` training-state manager

A shallow embedding of `src/fastestimator/summary/system.py` (the `System`
class), together with the minimal models of its collaborators that the
persistence subsystem touches.  Python dictionaries are modelled as
association lists, counters as `Option Nat` / `Nat`, fallible code as
`Except`.  Pieces of the repository whose code is not in the provided
sources (the `Summary` class, `is_restorable`, and the backend
`save_model` routine) are modelled from the spec and flagged as such in
their doc comments.
-/

namespace FE

/-- A primitive Python value as it appears in `System.__dict__` and in
JSON/pickle blobs: `none`/bool/int/string scalars, plus an opaque object
reference tagged by its class name (collaborator references such as the
network or pipeline are objects, never JSON scalars). -/
inductive PyPrim where
  | pnone : PyPrim
  | pbool : Bool → PyPrim
  | pint : Int → PyPrim
  | pstr : String → PyPrim
  | pobj : String → PyPrim
deriving DecidableEq, Repr

/-- The field bag (`__dict__`) of a persisted collaborator state. -/
abbrev StateDict := List (String × PyPrim)

/-- What a pickle blob deserializes to: a scalar, a list of per-object
state dicts (the shape `save_state` writes for traces/ops), or a mapping
keyed by name (the shape `save_state` writes for datasets). -/
inductive Blob where
  | prim : PyPrim → Blob
  | list : List StateDict → Blob
  | dict : List (String × StateDict) → Blob
deriving DecidableEq, Repr

/-- `true` iff the blob is a Python `list` (`isinstance(states, list)`,
system.py line 288). -/
def Blob.isList : Blob → Bool
  | .list _ => true
  | _ => false

/-- `true` iff the blob is a Python `dict` (`isinstance(states, dict)`,
system.py line 318). -/
def Blob.isDict : Blob → Bool
  | .dict _ => true
  | _ => false

/-- Association-list lookup, modelling Python `d[k]` / `k in d` on dicts
with unique keys (first match wins). -/
def alookup {α β : Type} [DecidableEq α] (k : α) : List (α × β) → Option β
  | [] => none
  | (k', v) :: rest => if k = k' then some v else alookup k rest

/-- Association-list update-or-append, modelling `defaultdict` style
`d[k] = f(d.get(k))`: an existing key is updated in place, a new key is
appended at the end (Python dict insertion order). -/
def alupdate {α β : Type} [DecidableEq α] (k : α) (f : Option β → β) :
    List (α × β) → List (α × β)
  | [] => [(k, f none)]
  | (k', v) :: rest =>
    if k = k' then (k', f (some v)) :: rest else (k', v) :: alupdate k f rest

/-- `d.pop(k, None)`: remove the key `k` if present, a no-op otherwise
(system.py line 164). -/
def dictPop {α β : Type} [DecidableEq α] (k : α) (l : List (α × β)) :
    List (α × β) :=
  l.filter (fun kv => decide (kv.1 ≠ k))

/-- Python `d.update(u)` (system.py line 227): every key of `u` ends up in
the result with `u`'s value — existing keys are overwritten in place, new
keys are appended in `u`'s order.  There is no error path: the merge is
unconditional. -/
def dictUpdate {β : Type} (d u : List (String × β)) : List (String × β) :=
  d.map (fun kv => (kv.1, (alookup kv.1 u).getD kv.2)) ++
    u.filter (fun kv => (alookup kv.1 d).isNone)

/-- The error taxonomy of `save_state`/`load_state`.  In Python these are
`FileNotFoundError` / `ValueError` instances; the constructors here encode
the distinct raising conditions (spec section 7's taxonomy). -/
inductive SysErr where
  | missingStateFile : SysErr
  | notAList : SysErr
  | notADict : SysErr
  | shapeMismatch : SysErr
  | unexpectedKey : SysErr
  | unsupportedModelType : SysErr
  | missingWeightsFile : SysErr
  | missingOptimizerFile : SysErr
deriving DecidableEq, Repr

/-- The runtime type tag of a model: `tf.keras.Model`, `torch.nn.Module`,
or anything else (line 258-263 dispatches on `isinstance`). -/
inductive MKind where
  | tfKeras : MKind
  | torchModule : MKind
  | other : MKind
deriving DecidableEq, Repr

/-- A model handle: the persistence layer only consumes its `model_name`
and its runtime type tag. -/
structure ModelH where
  model_name : String
  kind : MKind
deriving DecidableEq, Repr

/-- A trace / tensor-op / numpy-op / dataset collaborator as the
persistence layer sees it: capability flags for `__getstate__` /
`__setstate__` / `__dict__` (`hasattr` probes, lines 195-208 and 293-300),
the state `__getstate__` would return, and the live field bag.
`__setstate__` bodies are collaborator code outside the excerpt; modelled
from the spec: "if it exposes an explicit state-restore capability, invoke
it" — invoking it applies the persisted state as the new field bag. -/
structure Obj where
  hasGetState : Bool
  hasSetState : Bool
  hasDictAttr : Bool
  getState : StateDict
  fields : StateDict
deriving DecidableEq, Repr

/-- State application during restore (lines 293-300 and 324-332): prefer
`__setstate__`, else merge into `__dict__`, else silently skip. -/
def Obj.applyState (o : Obj) (st : StateDict) : Obj :=
  if o.hasSetState then { o with fields := st }
  else if o.hasDictAttr then { o with fields := dictUpdate o.fields st }
  else o

/-- `trace.__getstate__() if hasattr(trace, '__getstate__') else {}`
(lines 195, 198, 201). -/
def getStateOf (o : Obj) : StateDict :=
  if o.hasGetState then o.getState else []

/-- The `BaseNetwork` collaborator: an ordered model list and an ordered
tensor-op list. -/
structure Network where
  models : List ModelH
  ops : List Obj
deriving DecidableEq, Repr

/-- The `Pipeline` collaborator: a named dataset mapping and an ordered
numpy-op list. -/
structure Pipeline where
  data : List (String × Obj)
  ops : List Obj
deriving DecidableEq, Repr

/-- The metric log: mode → metric name → step → value.  The outer key is
`Option String` because `System.mode` can be `None` (warmup) and is used
directly as the history key (line 174).  Metric values are modelled as
integers. -/
abbrev History := List (Option String × List (String × List (Nat × Int)))

/-- Modelled from the spec: the `Summary` class (fastestimator/summary/
summary.py, not in the provided sources).  Per the spec it carries the
experiment name (`None` when anonymous), an optional config snapshot, and
the mode/metric/step-keyed history; "log only persists history if name is
non-empty", so the object is truthy iff its name is a non-empty string. -/
structure Summary where
  name : Option String
  system_config : Option String
  history : History
deriving DecidableEq, Repr

/-- Modelled from the spec: `if self.summary:` truthiness (line 173) — a
named experiment is active iff the summary's name is non-empty. -/
def Summary.isActive (sm : Summary) : Bool :=
  sm.name.getD "" ≠ ""

/-- The `System` object: the attributes declared at system.py lines 73-87,
with collaborator references (`network`, `pipeline`, `traces`) held
alongside the scalar training-state fields. -/
structure System where
  network : Network
  pipeline : Pipeline
  traces : List Obj
  mode : Option String
  num_devices : Nat
  log_steps : Option Nat
  total_epochs : Nat
  global_step : Option Nat
  epoch_idx : Nat
  batch_idx : Option Nat
  stop_training : Bool
  max_train_steps_per_epoch : Option Nat
  max_eval_steps_per_epoch : Option Nat
  summary : Summary
  experiment_time : String
deriving DecidableEq, Repr

/-- `update_global_step` (lines 122-128): first call sets 1, later calls
increment. -/
def System.update_global_step (s : System) : System :=
  match s.global_step with
  | none => { s with global_step := some 1 }
  | some n => { s with global_step := some (n + 1) }

/-- `update_batch_idx` (lines 130-136): first call sets 1, later calls
increment. -/
def System.update_batch_idx (s : System) : System :=
  match s.batch_idx with
  | none => { s with batch_idx := some 1 }
  | some n => { s with batch_idx := some (n + 1) }

/-- `reset` (lines 138-150): stamp the wall-clock time (`now` models
`datetime.now().strftime(...)`), enter train mode, re-initialize the
counters (`_initialize_state`: `global_step = None`, `epoch_idx = 0`),
clear `batch_idx` and the stop flag, and build a fresh `Summary`. -/
def System.reset (s : System) (now : String) (summary_name : Option String)
    (system_config : Option String) : System :=
  { s with
    experiment_time := now
    mode := some "train"
    global_step := none
    epoch_idx := 0
    batch_idx := none
    stop_training := false
    summary := { name := summary_name, system_config := system_config, history := [] } }

/-- Python `summary_name or self.summary.name` (line 163): keep the old
name unless a non-empty new one is provided. -/
def orKeepName (summary_name : Option String) (old : Option String) :
    Option String :=
  match summary_name with
  | some n => if n = "" then old else some n
  | none => old

/-- `reset_for_test` (lines 152-164): keep a non-empty experiment time (or
stamp `now`), enter test mode, set `epoch_idx` to `total_epochs` only when
training had not been stopped early, clear the stop flag, keep the old
experiment name unless a new one is given, and pop the `test` bucket from
the history. -/
def System.reset_for_test (s : System) (now : String)
    (summary_name : Option String) : System :=
  { s with
    experiment_time := if s.experiment_time = "" then now else s.experiment_time
    mode := some "test"
    epoch_idx := if s.stop_training then s.epoch_idx else s.total_epochs
    stop_training := false
    summary := { s.summary with
      name := orKeepName summary_name s.summary.name
      history := dictPop (some "test") s.summary.history } }

/-- `history[mode][key][step] = value` on a `defaultdict`-backed history:
missing levels are created on the fly. -/
def historyRecord (h : History) (mode : Option String) (key : String)
    (step : Nat) (v : Int) : History :=
  alupdate mode
    (fun mo => alupdate key
      (fun ko => alupdate step (fun _ => v) (ko.getD []))
      (mo.getD []))
    h

/-- `write_summary` (lines 166-174): iff the experiment is named, record
`value` at `history[self.mode][key][self.global_step or 0]`; otherwise a
no-op. -/
def System.write_summary (s : System) (key : String) (v : Int) : System :=
  if s.summary.isActive then
    { s with summary := { s.summary with
        history := historyRecord s.summary.history s.mode key
          (s.global_step.getD 0) v } }
  else s

/-! ## Persistence: `save_state` / `load_state` -/

/-- The contents of `system.json`: the JSON-safe `System` attributes.
Modelled from the spec for the missing `is_restorable` helper: "An
attribute is restorable if it is JSON-serializable; any attribute that is
not (e.g. live object references) is silently excluded", so exactly the
scalar fields below survive the filter at line 184 while `network`,
`pipeline`, `traces` and `summary` do not. -/
structure SysAttrs where
  mode : Option String
  num_devices : Nat
  log_steps : Option Nat
  total_epochs : Nat
  global_step : Option Nat
  epoch_idx : Nat
  batch_idx : Option Nat
  stop_training : Bool
  max_train_steps_per_epoch : Option Nat
  max_eval_steps_per_epoch : Option Nat
  experiment_time : String
deriving DecidableEq, Repr

/-- Extract the restorable attribute set written to `system.json`
(line 184-186). -/
def System.restorableAttrs (s : System) : SysAttrs :=
  { mode := s.mode
    num_devices := s.num_devices
    log_steps := s.log_steps
    total_epochs := s.total_epochs
    global_step := s.global_step
    epoch_idx := s.epoch_idx
    batch_idx := s.batch_idx
    stop_training := s.stop_training
    max_train_steps_per_epoch := s.max_train_steps_per_epoch
    max_eval_steps_per_epoch := s.max_eval_steps_per_epoch
    experiment_time := s.experiment_time }

/-- `self.__dict__.update(state)` (line 227) restricted to the attribute
file `save_state` writes: every restorable scalar field is overwritten
with the persisted value; collaborator references are untouched because
`system.json` as written by `save_state` never contains them. -/
def System.applySystemJson (s : System) (a : SysAttrs) : System :=
  { s with
    mode := a.mode
    num_devices := a.num_devices
    log_steps := a.log_steps
    total_epochs := a.total_epochs
    global_step := a.global_step
    epoch_idx := a.epoch_idx
    batch_idx := a.batch_idx
    stop_training := a.stop_training
    max_train_steps_per_epoch := a.max_train_steps_per_epoch
    max_eval_steps_per_epoch := a.max_eval_steps_per_epoch
    experiment_time := a.experiment_time }

/-- Encode an optional counter as a JSON primitive. -/
def optNatPrim : Option Nat → PyPrim
  | none => .pnone
  | some n => .pint n

/-- Encode an optional string as a JSON primitive. -/
def optStrPrim : Option String → PyPrim
  | none => .pnone
  | some s => .pstr s

/-- The full `System.__dict__` as a Python attribute dict, entries in the
order the attributes are assigned in `__init__` / `_initialize_state`
(lines 101-120).  Collaborator references appear as opaque object values.
This is the representation `self.__dict__.update(state)` (line 227)
operates on. -/
def System.attrDict (s : System) : List (String × PyPrim) :=
  [("network", .pobj "BaseNetwork"),
   ("pipeline", .pobj "Pipeline"),
   ("traces", .pobj "TraceList"),
   ("mode", optStrPrim s.mode),
   ("num_devices", .pint s.num_devices),
   ("log_steps", optNatPrim s.log_steps),
   ("total_epochs", .pint s.total_epochs),
   ("batch_idx", optNatPrim s.batch_idx),
   ("max_train_steps_per_epoch", optNatPrim s.max_train_steps_per_epoch),
   ("max_eval_steps_per_epoch", optNatPrim s.max_eval_steps_per_epoch),
   ("stop_training", .pbool s.stop_training),
   ("summary", .pobj "Summary"),
   ("experiment_time", .pstr s.experiment_time),
   ("global_step", optNatPrim s.global_step),
   ("epoch_idx", .pint s.epoch_idx)]

/-- The attribute-merge step of `load_state` at the dict level: line 227
is exactly `self.__dict__.update(state)` — an unconditional merge with no
key filtering and no error path. -/
def loadSystemJsonMerge (sysDict state : List (String × PyPrim)) :
    List (String × PyPrim) :=
  dictUpdate sysDict state

/-- A checkpoint directory: the artifacts `save_state` writes and
`load_state` reads.  `none` models an absent file; `modelFiles` is the set
of model/optimizer artifact names present in the directory. -/
structure Directory where
  systemJson : Option SysAttrs
  modelFiles : List String
  summaryPkl : Option Summary
  tracesPkl : Option Blob
  topsPkl : Option Blob
  nopsPkl : Option Blob
  dsPkl : Option Blob
deriving DecidableEq, Repr

/-- The weights / optimizer file extensions per backend (lines 258-263):
`h5`/`pkl` for tf.keras, `pt`/`pt` for torch; `none` for an unsupported
runtime type. -/
def extsOf : MKind → Option (String × String)
  | .tfKeras => some ("h5", "pkl")
  | .torchModule => some ("pt", "pt")
  | .other => none

/-- The weights artifact name `{model_name}.{model_ext}` (line 264). -/
def weightsFile (m : ModelH) (ext : String) : String :=
  m.model_name ++ "." ++ ext

/-- The optimizer artifact name `{model_name}_opt.{optimizer_ext}`
(line 267). -/
def optimizerFile (m : ModelH) (ext : String) : String :=
  m.model_name ++ "_opt." ++ ext

/-- Modelled from the spec: the backend `save_model` routine (not in the
provided sources) — "producing exactly two artifacts per model: weights,
and optimizer state, each named deterministically by the model's name"
with backend-chosen extensions; an unknown model type has no backend and
fails. -/
def saveModelFiles (m : ModelH) : Except SysErr (List String) :=
  match extsOf m.kind with
  | some (we, oe) => .ok [weightsFile m we, optimizerFile m oe]
  | none => .error .unsupportedModelType

/-- Save every model in order (line 188-189), accumulating the artifact
names written into the directory. -/
def saveModels : List ModelH → Except SysErr (List String)
  | [] => .ok []
  | m :: rest =>
    match saveModelFiles m with
    | .error e => .error e
    | .ok fs =>
      match saveModels rest with
      | .error e => .error e
      | .ok rest2 => .ok (fs ++ rest2)

/-- `save_state` (lines 176-210): write `system.json` (restorable
attributes only), the per-model weight/optimizer artifacts, the pickled
`Summary`, the three positional state lists (traces, tensor-ops,
numpy-ops, one `__getstate__` entry per object, `{}` when absent), and the
sparse dataset mapping (datasets without `__getstate__` are omitted
entirely). -/
def System.save_state (s : System) : Except SysErr Directory :=
  match saveModels s.network.models with
  | .error e => .error e
  | .ok files =>
  .ok { systemJson := some s.restorableAttrs
        modelFiles := files
        summaryPkl := some s.summary
        tracesPkl := some (.list (s.traces.map getStateOf))
        topsPkl := some (.list (s.network.ops.map getStateOf))
        nopsPkl := some (.list (s.pipeline.ops.map getStateOf))
        dsPkl := some (.dict (s.pipeline.data.filterMap
          (fun kv => if kv.2.hasGetState then some (kv.1, kv.2.getState) else none))) }

/-- `_load_model` (lines 246-270): dispatch on the runtime type (unknown
type → error), then require the weights artifact, then the optimizer
artifact; only when both exist is the backend `load_model` invoked, which
is the success case. -/
def load_model (m : ModelH) (files : List String) : Except SysErr Unit :=
  match extsOf m.kind with
  | none => .error .unsupportedModelType
  | some (we, oe) =>
    if weightsFile m we ∈ files then
      if optimizerFile m oe ∈ files then .ok ()
      else .error .missingOptimizerFile
    else .error .missingWeightsFile

/-- The model loop of `load_state` (lines 229-230): restore every model in
order, aborting on the first failure. -/
def loadModels : List ModelH → List String → Except SysErr Unit
  | [], _ => .ok ()
  | m :: rest, files =>
    match load_model m files with
    | .error e => .error e
    | .ok _ => loadModels rest files

/-- `_load_list` (lines 272-300): missing file → error; non-list blob →
error; length mismatch with the live sequence → error; otherwise apply the
persisted states positionally. -/
def load_list (blob : Option Blob) (objs : List Obj) :
    Except SysErr (List Obj) :=
  match blob with
  | none => .error .missingStateFile
  | some b =>
    match b with
    | .list states =>
      if states.length = objs.length then
        .ok (List.zipWith Obj.applyState objs states)
      else .error .shapeMismatch
    | _ => .error .notAList

/-- `_load_dict` (lines 302-332): missing file → error; non-dict blob →
error; any persisted key absent from the live mapping → error; otherwise
apply each persisted state to its named live object, leaving objects with
no persisted entry untouched. -/
def load_dict (blob : Option Blob) (data : List (String × Obj)) :
    Except SysErr (List (String × Obj)) :=
  match blob with
  | none => .error .missingStateFile
  | some b =>
    match b with
    | .dict states =>
      if states.all (fun kv => (alookup kv.1 data).isSome) then
        .ok (data.map (fun kv =>
          match alookup kv.1 states with
          | some st => (kv.1, kv.2.applyState st)
          | none => kv))
      else .error .unexpectedKey
    | _ => .error .notADict

/-- `load_state` (lines 212-244): restore the attribute file, then every
model, then the summary, then the traces, tensor-ops, numpy-ops lists,
then the dataset mapping — in that order, each step fallible. -/
def System.load_state (d : Directory) (s : System) : Except SysErr System :=
  match d.systemJson with
  | none => .error .missingStateFile
  | some a =>
    let s1 := s.applySystemJson a
    match loadModels s1.network.models d.modelFiles with
    | .error e => .error e
    | .ok _ =>
      match d.summaryPkl with
      | none => .error .missingStateFile
      | some sm =>
        let s2 := { s1 with summary := sm }
        match load_list d.tracesPkl s2.traces with
        | .error e => .error e
        | .ok tr =>
          let s3 := { s2 with traces := tr }
          match load_list d.topsPkl s3.network.ops with
          | .error e => .error e
          | .ok ops2 =>
            let s4 := { s3 with network := { s3.network with ops := ops2 } }
            match load_list d.nopsPkl s4.pipeline.ops with
            | .error e => .error e
            | .ok ops3 =>
              let s5 := { s4 with pipeline := { s4.pipeline with ops := ops3 } }
              match load_dict d.dsPkl s5.pipeline.data with
              | .error e => .error e
              | .ok ds =>
                .ok { s5 with pipeline := { s5.pipeline with data := ds } }

/-! The seven restore steps of `load_state`, named individually so the
order and abort behaviour can be stated. -/

/-- Step 1 of `load_state`: the attribute file (lines 221-227). -/
def stepAttrs (d : Directory) (s : System) : Except SysErr System :=
  match d.systemJson with
  | none => .error .missingStateFile
  | some a => .ok (s.applySystemJson a)

/-- Step 2 of `load_state`: all models (lines 228-230). -/
def stepModels (d : Directory) (s : System) : Except SysErr System :=
  (loadModels s.network.models d.modelFiles).map (fun _ => s)

/-- Step 3 of `load_state`: the summary blob (lines 231-236). -/
def stepSummary (d : Directory) (s : System) : Except SysErr System :=
  match d.summaryPkl with
  | none => .error .missingStateFile
  | some sm => .ok { s with summary := sm }

/-- Step 4 of `load_state`: the trace list (lines 237-238). -/
def stepTraces (d : Directory) (s : System) : Except SysErr System :=
  (load_list d.tracesPkl s.traces).map (fun tr => { s with traces := tr })

/-- Step 5 of `load_state`: the tensor-op list (lines 239-240). -/
def stepTops (d : Directory) (s : System) : Except SysErr System :=
  (load_list d.topsPkl s.network.ops).map
    (fun ops => { s with network := { s.network with ops := ops } })

/-- Step 6 of `load_state`: the numpy-op list (lines 241-242). -/
def stepNops (d : Directory) (s : System) : Except SysErr System :=
  (load_list d.nopsPkl s.pipeline.ops).map
    (fun ops => { s with pipeline := { s.pipeline with ops := ops } })

/-- Step 7 of `load_state`: the dataset mapping (lines 243-244). -/
def stepDs (d : Directory) (s : System) : Except SysErr System :=
  (load_dict d.dsPkl s.pipeline.data).map
    (fun ds => { s with pipeline := { s.pipeline with data := ds } })

/-! ## Concrete instances used by witnesses and counterexamples -/

/-- A stateless collaborator: no `__getstate__`, no `__setstate__`, no
`__dict__`. -/
def obj0 : Obj :=
  { hasGetState := false, hasSetState := false, hasDictAttr := false
    getState := [], fields := [] }

/-- A fully stateful collaborator. -/
def objG : Obj :=
  { hasGetState := true, hasSetState := true, hasDictAttr := true
    getState := [("w", .pint 3)], fields := [("w", .pint 0)] }

/-- An anonymous summary. -/
def sum0 : Summary := { name := none, system_config := none, history := [] }

/-- A named summary with some train history. -/
def sumNamed : Summary :=
  { name := some "exp1", system_config := none
    history := [(some "train", [("acc", [(1, 4)])])] }

/-- A freshly constructed system: counters unset, stop flag clear,
anonymous summary. -/
def sysFresh : System :=
  { network := { models := [], ops := [] }
    pipeline := { data := [], ops := [] }
    traces := [obj0]
    mode := some "train", num_devices := 1, log_steps := none
    total_epochs := 5, global_step := none, epoch_idx := 0
    batch_idx := none, stop_training := false
    max_train_steps_per_epoch := none, max_eval_steps_per_epoch := none
    summary := sum0, experiment_time := "" }

/-- A system whose training was stopped early (`stop_training = true`,
`epoch_idx ≠ total_epochs`). -/
def sysStopped : System :=
  { sysFresh with
    global_step := some 10, epoch_idx := 2, stop_training := true
    summary := sumNamed, experiment_time := "t0" }

/-- A mid-training system with a named experiment. -/
def sysNamed : System :=
  { sysFresh with
    global_step := some 10, epoch_idx := 3, summary := sumNamed,
    experiment_time := "t0" }

/-- A checkpoint directory whose first three artifacts are valid for
`sysFresh` but whose trace list is empty while the live system has one
trace. -/
def dirTracesBad : Directory :=
  { systemJson := some sysFresh.restorableAttrs
    modelFiles := []
    summaryPkl := some sum0
    tracesPkl := some (.list [])
    topsPkl := some (.list [])
    nopsPkl := some (.list [])
    dsPkl := some (.dict []) }

/-- A round-trip source system: one tf.keras model, stateful traces and
ops, a two-dataset pipeline with one stateless dataset, named summary,
nontrivial counters. -/
def origEx : System :=
  { network := { models := [{ model_name := "m1", kind := .tfKeras }], ops := [objG] }
    pipeline := { data := [("ds1", objG), ("ds2", obj0)], ops := [obj0] }
    traces := [objG, obj0]
    mode := some "eval", num_devices := 2, log_steps := some 100
    total_epochs := 7, global_step := some 42, epoch_idx := 3
    batch_idx := some 5, stop_training := false
    max_train_steps_per_epoch := none, max_eval_steps_per_epoch := some 9
    summary := sumNamed, experiment_time := "20200101-000000" }

/-- A freshly constructed system with the same collaborator shape as
`origEx` but untrained counters. -/
def freshEx : System :=
  { network := { models := [{ model_name := "m1", kind := .tfKeras }], ops := [obj0] }
    pipeline := { data := [("ds1", obj0), ("ds2", objG)], ops := [objG] }
    traces := [obj0, obj0]
    mode := none, num_devices := 1, log_steps := none
    total_epochs := 0, global_step := none, epoch_idx := 0
    batch_idx := none, stop_training := false
    max_train_steps_per_epoch := none, max_eval_steps_per_epoch := none
    summary := sum0, experiment_time := "" }

/-- The checkpoint directory `origEx.save_state` produces. -/
def dEx : Directory :=
  { systemJson := some origEx.restorableAttrs
    modelFiles := ["m1.h5", "m1_opt.pkl"]
    summaryPkl := some sumNamed
    tracesPkl := some (.list [[("w", .pint 3)], []])
    topsPkl := some (.list [[("w", .pint 3)]])
    nopsPkl := some (.list [[]])
    dsPkl := some (.dict [("ds1", [("w", .pint 3)])]) }

/-! ## Association-list lemmas -/

theorem alookup_alupdate_self {α β : Type} [DecidableEq α] (k : α)
    (f : Option β → β) (l : List (α × β)) :
    alookup k (alupdate k f l) = some (f (alookup k l)) := by
  induction l with
  | nil => simp [alookup, alupdate]
  | cons kv rest ih =>
    by_cases h : k = kv.1
    · simp [alookup, alupdate, h]
    · simp [alookup, alupdate, h, ih]

theorem alookup_map_getD {β : Type} (u d : List (String × β)) (k : String) :
    alookup k (d.map (fun kv => (kv.1, (alookup kv.1 u).getD kv.2))) =
      (alookup k d).map (fun v => (alookup k u).getD v) := by
  induction d with
  | nil => simp [alookup]
  | cons kv rest ih =>
    by_cases h : k = kv.1
    · subst h; simp [alookup]
    · simp [alookup, h, ih]

theorem alookup_append {β : Type} (l₁ l₂ : List (String × β)) (k : String) :
    alookup k (l₁ ++ l₂) =
      match alookup k l₁ with
      | some v => some v
      | none => alookup k l₂ := by
  induction l₁ with
  | nil => simp [alookup]
  | cons kv rest ih =>
    by_cases h : k = kv.1
    · simp [alookup, h]
    · simp [alookup, h, ih]

theorem alookup_filter_isNone {β : Type} (d u : List (String × β)) (k : String) :
    alookup k (u.filter (fun kv => (alookup kv.1 d).isNone)) =
      if (alookup k d).isNone then alookup k u else none := by
  induction u with
  | nil => simp [alookup]
  | cons kv rest ih =>
    by_cases hq : (alookup kv.1 d).isNone
    · by_cases h : k = kv.1
      · subst h; simp [alookup, List.filter, hq]
      · simp [alookup, List.filter, hq, h, ih]
    · by_cases h : k = kv.1
      · subst h; simp [alookup, List.filter, hq, ih]
      · simp [alookup, List.filter, hq, h, ih]

theorem alookup_dictUpdate {β : Type} (d u : List (String × β)) (k : String) :
    alookup k (dictUpdate d u) =
      match alookup k u with
      | some v => some v
      | none => alookup k d := by
  unfold dictUpdate
  rw [alookup_append, alookup_map_getD, alookup_filter_isNone]
  cases hd : alookup k d with
  | none => cases alookup k u <;> simp [hd]
  | some v => cases alookup k u <;> simp [hd]

/-! ## Step lemmas for the counter and reset methods -/

theorem update_global_step_value (s : System) :
    (s.update_global_step).global_step = some (s.global_step.getD 0 + 1) := by
  cases h : s.global_step <;> simp [System.update_global_step, h]

theorem update_batch_idx_value (s : System) :
    (s.update_batch_idx).batch_idx = some (s.batch_idx.getD 0 + 1) := by
  cases h : s.batch_idx <;> simp [System.update_batch_idx, h]

theorem iterate_global_step (j : Nat) (s : System) (m : Nat)
    (h : s.global_step = some m) :
    (System.update_global_step^[j] s).global_step = some (m + j) := by
  induction j generalizing s m with
  | zero => simpa using h
  | succ j ih =>
    rw [Function.iterate_succ_apply]
    have h1 : (s.update_global_step).global_step = some (m + 1) := by
      rw [update_global_step_value, h]; rfl
    rw [ih s.update_global_step (m + 1) h1]
    congr 1
    omega

theorem iterate_batch_idx (j : Nat) (s : System) (m : Nat)
    (h : s.batch_idx = some m) :
    (System.update_batch_idx^[j] s).batch_idx = some (m + j) := by
  induction j generalizing s m with
  | zero => simpa using h
  | succ j ih =>
    rw [Function.iterate_succ_apply]
    have h1 : (s.update_batch_idx).batch_idx = some (m + 1) := by
      rw [update_batch_idx_value, h]; rfl
    rw [ih s.update_batch_idx (m + 1) h1]
    congr 1
    omega

theorem orKeepName_idem (nm old : Option String) :
    orKeepName nm (orKeepName nm old) = orKeepName nm old := by
  cases nm with
  | none => rfl
  | some n => by_cases h : n = "" <;> simp [orKeepName, h]

theorem dictPop_idem {α β : Type} [DecidableEq α] (k : α) (l : List (α × β)) :
    dictPop k (dictPop k l) = dictPop k l := by
  simp [dictPop, List.filter_filter]

theorem historyRecord_lookup (h : History) (mode : Option String)
    (key : String) (step : Nat) (v : Int) :
    alookup step
      ((alookup key ((alookup mode (historyRecord h mode key step v)).getD [])).getD [])
      = some v := by
  unfold historyRecord
  rw [alookup_alupdate_self]
  simp only [Option.getD_some]
  rw [alookup_alupdate_self]
  simp only [Option.getD_some]
  rw [alookup_alupdate_self]

/-! ## Claim theorems -/

/-- C3: starting from a freshly reset `System` (`global_step = none`,
`batch_idx = none`), after the k-th call to `update_global_step` the value
of `global_step` is exactly `k` (values 1, 2, 3, … with no gaps or
repeats), and likewise `batch_idx` under `update_batch_idx`. -/
theorem update_counters_one_based (s : System) (k : Nat) (hk : 1 ≤ k)
    (hg : s.global_step = none) (hb : s.batch_idx = none) :
    (System.update_global_step^[k] s).global_step = some k ∧
      (System.update_batch_idx^[k] s).batch_idx = some k := by
  obtain ⟨j, rfl⟩ : ∃ j, k = j + 1 := ⟨k - 1, by omega⟩
  constructor
  · rw [Function.iterate_succ_apply]
    have h1 : (s.update_global_step).global_step = some 1 := by
      rw [update_global_step_value, hg]; rfl
    rw [iterate_global_step j s.update_global_step 1 h1]
    congr 1
    omega
  · rw [Function.iterate_succ_apply]
    have h1 : (s.update_batch_idx).batch_idx = some 1 := by
      rw [update_batch_idx_value, hb]; rfl
    rw [iterate_batch_idx j s.update_batch_idx 1 h1]
    congr 1
    omega

/-- Witness for C3 at `k = 3` on a freshly constructed system. -/
theorem update_counters_one_based_witness :
    (System.update_global_step^[3] sysFresh).global_step = some 3 ∧
      (System.update_batch_idx^[3] sysFresh).batch_idx = some 3 :=
  update_counters_one_based sysFresh 3 (by decide) rfl rfl

/-- C2 counterexample: with the stop flag set before the first call
(`sysStopped.stop_training = true`, `epoch_idx = 2 ≠ total_epochs = 5`),
calling `reset_for_test` twice does not equal calling it once — the first
call clears the stop flag, so the second call overwrites `epoch_idx` with
`total_epochs`. -/
theorem reset_for_test_not_idempotent_when_stopped :
    (sysStopped.reset_for_test "t1" none).reset_for_test "t1" none ≠
      sysStopped.reset_for_test "t1" none := by
  decide

/-- C2 (amended): `reset_for_test` is idempotent provided the stop flag
was clear before the first call; with the flag set, a second call
additionally overwrites `epoch_idx` with `total_epochs`. -/
theorem reset_for_test_idempotent_of_not_stopped (s : System) (now : String)
    (nm : Option String) (h : s.stop_training = false) :
    (s.reset_for_test now nm).reset_for_test now nm =
      s.reset_for_test now nm := by
  unfold System.reset_for_test
  by_cases he : s.experiment_time = "" <;> by_cases hn : now = "" <;>
    simp [h, he, hn, orKeepName_idem, dictPop_idem]

/-- Witness for the amended C2 on a system whose stop flag is clear. -/
theorem reset_for_test_idempotent_witness :
    (sysFresh.reset_for_test "t1" none).reset_for_test "t1" none =
      sysFresh.reset_for_test "t1" none :=
  reset_for_test_idempotent_of_not_stopped sysFresh "t1" none rfl

/-- C9: when a named experiment is active, `write_summary key v` records
`v` at `history[mode][key][global_step or 0]`; when no named experiment is
active the call is a no-op (no error, metric log unchanged). -/
theorem write_summary_spec (s : System) (key : String) (v : Int) :
    (s.summary.isActive = true →
      alookup (s.global_step.getD 0)
        ((alookup key
          ((alookup s.mode (s.write_summary key v).summary.history).getD [])).getD [])
        = some v) ∧
    (s.summary.isActive = false → s.write_summary key v = s) := by
  constructor
  · intro ha
    simp only [System.write_summary, ha, if_true]
    exact historyRecord_lookup s.summary.history s.mode key (s.global_step.getD 0) v
  · intro ha
    simp [System.write_summary, ha]

/-- Witness for C9: recording on a named experiment, and the no-op on an
anonymous one. -/
theorem write_summary_spec_witness :
    (alookup (sysNamed.global_step.getD 0)
      ((alookup "acc"
        ((alookup sysNamed.mode (sysNamed.write_summary "acc" 7).summary.history).getD [])).getD [])
      = some 7) ∧
    sysFresh.write_summary "acc" 7 = sysFresh :=
  ⟨(write_summary_spec sysNamed "acc" 7).1 (by decide),
   (write_summary_spec sysFresh "acc" 7).2 (by decide)⟩

theorem alookup_map_restore (states : List (String × StateDict))
    (data : List (String × Obj)) (k : String)
    (h : alookup k states = none) :
    alookup k (data.map (fun kv =>
      match alookup kv.1 states with
      | some st => (kv.1, kv.2.applyState st)
      | none => kv)) = alookup k data := by
  induction data with
  | nil => simp [alookup]
  | cons kv rest ih =>
    by_cases hk : k = kv.1
    · subst hk
      rw [List.map_cons]
      rw [show (match alookup kv.1 states with
            | some st => (kv.1, kv.2.applyState st)
            | none => kv) = kv by rw [h]]
      simp [alookup]
    · rw [List.map_cons]
      have hkey : (match alookup kv.1 states with
          | some st => (kv.1, kv.2.applyState st)
          | none => kv).1 = kv.1 := by
        cases alookup kv.1 states <;> rfl
      cases hst : alookup kv.1 states with
      | none => simp [alookup, hst, hk, ih]
      | some st => simp [alookup, hst, hk, ih]

/-- C5: a persisted trace/tensor-op/numpy-op list blob of length N against
a live sequence of length M ≠ N makes `_load_list` fail with the
shape-mismatch error; no live object is updated (the error result carries
no updated sequence). -/
theorem load_list_shape_mismatch (states : List StateDict) (objs : List Obj)
    (h : states.length ≠ objs.length) :
    load_list (some (.list states)) objs = .error .shapeMismatch := by
  simp [load_list, h]

/-- Witness for C5: a one-entry blob against an empty live sequence. -/
theorem load_list_shape_mismatch_witness :
    load_list (some (.list [[]])) ([] : List Obj) = .error .shapeMismatch :=
  load_list_shape_mismatch [[]] [] (by decide)

/-- C10: a trace/op blob that deserializes to a non-list fails with the
"expected a list" error, and a dataset blob that deserializes to a
non-dict fails with the "expected a dict" error, before any live object
is updated. -/
theorem load_blob_container_type_check (b : Blob) (objs : List Obj)
    (data : List (String × Obj)) :
    (b.isList = false → load_list (some b) objs = .error .notAList) ∧
    (b.isDict = false → load_dict (some b) data = .error .notADict) := by
  constructor
  · intro hb; cases b <;> simp_all [load_list, Blob.isList]
  · intro hb; cases b <;> simp_all [load_dict, Blob.isDict]

/-- Witness for C10 on a scalar blob. -/
theorem load_blob_container_type_check_witness :
    load_list (some (.prim .pnone)) [obj0] = .error .notAList ∧
    load_dict (some (.prim .pnone)) [("ds1", obj0)] = .error .notADict :=
  ⟨(load_blob_container_type_check (.prim .pnone) [obj0] [("ds1", obj0)]).1 rfl,
   (load_blob_container_type_check (.prim .pnone) [obj0] [("ds1", obj0)]).2 rfl⟩

/-- C7: `_load_model` rejects an unsupported runtime type; for a supported
type it requires the weights artifact, then the optimizer artifact; the
backend load (the success case) is reached iff both artifacts exist. -/
theorem load_model_artifact_checks (m : ModelH) (files : List String) :
    (m.kind = .other → load_model m files = .error .unsupportedModelType) ∧
    (∀ we oe, extsOf m.kind = some (we, oe) →
      (weightsFile m we ∉ files → load_model m files = .error .missingWeightsFile) ∧
      (weightsFile m we ∈ files → optimizerFile m oe ∉ files →
        load_model m files = .error .missingOptimizerFile) ∧
      (load_model m files = .ok () ↔
        weightsFile m we ∈ files ∧ optimizerFile m oe ∈ files)) := by
  constructor
  · intro hk; simp [load_model, hk, extsOf]
  · intro we oe hexts
    refine ⟨?_, ?_, ?_⟩
    · intro hw; simp [load_model, hexts, hw]
    · intro hw ho; simp [load_model, hexts, hw, ho]
    · constructor
      · intro hok
        by_cases hw : weightsFile m we ∈ files
        · by_cases ho : optimizerFile m oe ∈ files
          · exact ⟨hw, ho⟩
          · simp [load_model, hexts, hw, ho] at hok
        · simp [load_model, hexts, hw] at hok
      · rintro ⟨hw, ho⟩
        simp [load_model, hexts, hw, ho]

/-- Witness for C7: unsupported type, missing optimizer, and full success. -/
theorem load_model_artifact_checks_witness :
    load_model { model_name := "u", kind := .other } ["u.h5"] =
        .error .unsupportedModelType ∧
    load_model { model_name := "m1", kind := .tfKeras } ["m1.h5"] =
        .error .missingOptimizerFile ∧
    load_model { model_name := "m1", kind := .tfKeras } ["m1.h5", "m1_opt.pkl"] =
        .ok () :=
  ⟨(load_model_artifact_checks { model_name := "u", kind := .other } ["u.h5"]).1 rfl,
   ((load_model_artifact_checks { model_name := "m1", kind := .tfKeras }
      ["m1.h5"]).2 "h5" "pkl" rfl).2.1 (by decide) (by decide),
   ((load_model_artifact_checks { model_name := "m1", kind := .tfKeras }
      ["m1.h5", "m1_opt.pkl"]).2 "h5" "pkl" rfl).2.2.mpr ⟨by decide, by decide⟩⟩

/-- C6: `_load_dict` fails with the unexpected-key error when the
persisted mapping contains a key absent from the live dataset mapping;
with the keys a subset of the live keys it succeeds, and every dataset
without a persisted entry is left untouched. -/
theorem load_dict_superset_rejected_subset_ok
    (states : List (String × StateDict)) (data : List (String × Obj)) :
    ((∃ kv ∈ states, alookup kv.1 data = none) →
      load_dict (some (.dict states)) data = .error .unexpectedKey) ∧
    ((∀ kv ∈ states, (alookup kv.1 data).isSome = true) →
      load_dict (some (.dict states)) data =
        .ok (data.map (fun kv =>
          match alookup kv.1 states with
          | some st => (kv.1, kv.2.applyState st)
          | none => kv)) ∧
      ∀ k : String, alookup k states = none →
        alookup k (data.map (fun kv =>
          match alookup kv.1 states with
          | some st => (kv.1, kv.2.applyState st)
          | none => kv)) = alookup k data) := by
  constructor
  · rintro ⟨kv, hmem, hnone⟩
    have hall : ¬(states.all (fun kv => (alookup kv.1 data).isSome) = true) := by
      intro hc
      have := List.all_eq_true.mp hc kv hmem
      simp [hnone] at this
    simp only [load_dict]
    rw [if_neg hall]
  · intro hsub
    have hall : states.all (fun kv => (alookup kv.1 data).isSome) = true :=
      List.all_eq_true.mpr hsub
    refine ⟨?_, ?_⟩
    · simp only [load_dict]
      rw [if_pos hall]
    · intro k hk
      exact alookup_map_restore states data k hk

/-- Witness for C6: rejection for an unknown persisted key, acceptance
and untouched entries for a strict-subset persisted mapping. -/
theorem load_dict_superset_rejected_subset_ok_witness :
    load_dict (some (.dict [("unknown_ds", [])])) [("ds1", objG)] =
        .error .unexpectedKey ∧
    (load_dict (some (.dict [("ds1", [("w", .pint 3)])]))
        [("ds1", obj0), ("ds2", objG)] =
      .ok ([("ds1", obj0), ("ds2", objG)].map (fun kv =>
        match alookup kv.1 [("ds1", [("w", .pint 3)])] with
        | some st => (kv.1, kv.2.applyState st)
        | none => kv)) ∧
      alookup "ds2" ([("ds1", obj0), ("ds2", objG)].map (fun kv =>
        match alookup kv.1 [("ds1", [("w", .pint 3)])] with
        | some st => (kv.1, kv.2.applyState st)
        | none => kv)) = alookup "ds2" [("ds1", obj0), ("ds2", objG)]) :=
  ⟨(load_dict_superset_rejected_subset_ok [("unknown_ds", [])] [("ds1", objG)]).1
      ⟨("unknown_ds", []), by decide, by decide⟩,
   ((load_dict_superset_rejected_subset_ok [("ds1", [("w", .pint 3)])]
        [("ds1", obj0), ("ds2", objG)]).2 (by decide)).1,
   ((load_dict_superset_rejected_subset_ok [("ds1", [("w", .pint 3)])]
        [("ds1", obj0), ("ds2", objG)]).2 (by decide)).2 "ds2" (by decide)⟩

/-- C8 counterexample: merging a `system.json` state that names the
`network` collaborator is not rejected — `__dict__.update` overwrites the
collaborator entry with the file's value, and an unrecognized extra key is
likewise accepted into the attribute set. -/
theorem system_json_collaborator_key_not_rejected :
    alookup "network"
        (loadSystemJsonMerge sysFresh.attrDict [("network", .pstr "bogus")]) =
      some (.pstr "bogus") ∧
    alookup "network" sysFresh.attrDict = some (.pobj "BaseNetwork") ∧
    alookup "extra_key"
        (loadSystemJsonMerge sysFresh.attrDict [("extra_key", .pint 1)]) =
      some (.pint 1) := by
  decide

/-- C8 (amended): the attribute-file merge is unconditional
`dict.update`: every key present in the file ends up in the attribute set
with the file's value (a key naming a collaborator overwrites that
reference rather than being rejected), and keys absent from the file are
left unchanged. -/
theorem system_json_merge_unconditional (s : System)
    (state : List (String × PyPrim)) (k : String) :
    ((alookup k state).isSome = true →
      alookup k (loadSystemJsonMerge s.attrDict state) = alookup k state) ∧
    (alookup k state = none →
      alookup k (loadSystemJsonMerge s.attrDict state) = alookup k s.attrDict) := by
  constructor
  · intro h
    simp only [loadSystemJsonMerge]
    rw [alookup_dictUpdate]
    cases hs : alookup k state with
    | none => rw [hs] at h; simp at h
    | some v => rfl
  · intro h
    simp only [loadSystemJsonMerge]
    rw [alookup_dictUpdate, h]

/-- Witness for the amended C8: a file key overwrites, an absent key is
unchanged. -/
theorem system_json_merge_unconditional_witness :
    (alookup "mode" (loadSystemJsonMerge sysFresh.attrDict [("mode", .pstr "x")]) =
      alookup "mode" [("mode", PyPrim.pstr "x")]) ∧
    alookup "epoch_idx" (loadSystemJsonMerge sysFresh.attrDict [("mode", .pstr "x")]) =
      alookup "epoch_idx" sysFresh.attrDict :=
  ⟨(system_json_merge_unconditional sysFresh [("mode", .pstr "x")] "mode").1 (by decide),
   (system_json_merge_unconditional sysFresh [("mode", .pstr "x")] "epoch_idx").2 (by decide)⟩

theorem load_state_eq_steps (d : Directory) (s : System) :
    s.load_state d =
      Except.bind (Except.bind (Except.bind (Except.bind (Except.bind (Except.bind
        (stepAttrs d s) (stepModels d)) (stepSummary d)) (stepTraces d))
        (stepTops d)) (stepNops d)) (stepDs d) := by
  unfold System.load_state stepAttrs stepModels stepSummary stepTraces stepTops stepNops stepDs
  cases d.systemJson with
  | none => rfl
  | some a =>
    dsimp only [Except.bind, Except.map]
    cases loadModels (s.applySystemJson a).network.models d.modelFiles with
    | error e => rfl
    | ok u =>
      dsimp only [Except.bind, Except.map]
      cases d.summaryPkl with
      | none => rfl
      | some sm =>
        dsimp only [Except.bind, Except.map]
        cases load_list d.tracesPkl (s.applySystemJson a).traces with
        | error e => rfl
        | ok tr =>
          dsimp only [Except.bind, Except.map]
          cases load_list d.topsPkl (s.applySystemJson a).network.ops with
          | error e => rfl
          | ok ops2 =>
            dsimp only [Except.bind, Except.map]
            cases load_list d.nopsPkl (s.applySystemJson a).pipeline.ops with
            | error e => rfl
            | ok ops3 =>
              dsimp only [Except.bind, Except.map]
              cases load_dict d.dsPkl (s.applySystemJson a).pipeline.data with
              | error e => rfl
              | ok ds => rfl

/-- C4: `load_state` performs its restore steps in the fixed order
attribute file, models, summary, traces, tensor-ops, numpy-ops, datasets
(the step-composition identity); the first failing step's error is the
result of the whole call with no later step executed; and a success is
reported only when every step in the chain succeeded. -/
theorem load_state_step_order_first_failure (d : Directory) (s : System) :
    (s.load_state d =
      Except.bind (Except.bind (Except.bind (Except.bind (Except.bind (Except.bind
        (stepAttrs d s) (stepModels d)) (stepSummary d)) (stepTraces d))
        (stepTops d)) (stepNops d)) (stepDs d)) ∧
    (∀ e, stepAttrs d s = .error e → s.load_state d = .error e) ∧
    (∀ s1 e, stepAttrs d s = .ok s1 → stepModels d s1 = .error e →
      s.load_state d = .error e) ∧
    (∀ s1 s2 e, stepAttrs d s = .ok s1 → stepModels d s1 = .ok s2 →
      stepSummary d s2 = .error e → s.load_state d = .error e) ∧
    (∀ s1 s2 s3 e, stepAttrs d s = .ok s1 → stepModels d s1 = .ok s2 →
      stepSummary d s2 = .ok s3 → stepTraces d s3 = .error e →
      s.load_state d = .error e) ∧
    (∀ s1 s2 s3 s4 e, stepAttrs d s = .ok s1 → stepModels d s1 = .ok s2 →
      stepSummary d s2 = .ok s3 → stepTraces d s3 = .ok s4 →
      stepTops d s4 = .error e → s.load_state d = .error e) ∧
    (∀ s1 s2 s3 s4 s5 e, stepAttrs d s = .ok s1 → stepModels d s1 = .ok s2 →
      stepSummary d s2 = .ok s3 → stepTraces d s3 = .ok s4 →
      stepTops d s4 = .ok s5 → stepNops d s5 = .error e →
      s.load_state d = .error e) ∧
    (∀ s1 s2 s3 s4 s5 s6 e, stepAttrs d s = .ok s1 → stepModels d s1 = .ok s2 →
      stepSummary d s2 = .ok s3 → stepTraces d s3 = .ok s4 →
      stepTops d s4 = .ok s5 → stepNops d s5 = .ok s6 →
      stepDs d s6 = .error e → s.load_state d = .error e) ∧
    (∀ sf, s.load_state d = .ok sf → ∃ s1 s2 s3 s4 s5 s6,
      stepAttrs d s = .ok s1 ∧ stepModels d s1 = .ok s2 ∧
      stepSummary d s2 = .ok s3 ∧ stepTraces d s3 = .ok s4 ∧
      stepTops d s4 = .ok s5 ∧ stepNops d s5 = .ok s6 ∧
      stepDs d s6 = .ok sf) := by
  have H := load_state_eq_steps d s
  refine ⟨H, ?_, ?_, ?_, ?_, ?_, ?_, ?_, ?_⟩
  · intro e h1
    rw [H, h1]; dsimp only [Except.bind]
  · intro s1 e h1 h2
    rw [H, h1]; dsimp only [Except.bind]; rw [h2]
  · intro s1 s2 e h1 h2 h3
    rw [H, h1]; dsimp only [Except.bind]; rw [h2]
    dsimp only [Except.bind]; rw [h3]
  · intro s1 s2 s3 e h1 h2 h3 h4
    rw [H, h1]; dsimp only [Except.bind]; rw [h2]
    dsimp only [Except.bind]; rw [h3]
    dsimp only [Except.bind]; rw [h4]
  · intro s1 s2 s3 s4 e h1 h2 h3 h4 h5
    rw [H, h1]; dsimp only [Except.bind]; rw [h2]
    dsimp only [Except.bind]; rw [h3]
    dsimp only [Except.bind]; rw [h4]
    dsimp only [Except.bind]; rw [h5]
  · intro s1 s2 s3 s4 s5 e h1 h2 h3 h4 h5 h6
    rw [H, h1]; dsimp only [Except.bind]; rw [h2]
    dsimp only [Except.bind]; rw [h3]
    dsimp only [Except.bind]; rw [h4]
    dsimp only [Except.bind]; rw [h5]
    dsimp only [Except.bind]; rw [h6]
  · intro s1 s2 s3 s4 s5 s6 e h1 h2 h3 h4 h5 h6 h7
    rw [H, h1]; dsimp only [Except.bind]; rw [h2]
    dsimp only [Except.bind]; rw [h3]
    dsimp only [Except.bind]; rw [h4]
    dsimp only [Except.bind]; rw [h5]
    dsimp only [Except.bind]; rw [h6]
    dsimp only [Except.bind]; rw [h7]
  · intro sf h
    rw [H] at h
    cases h1 : stepAttrs d s with
    | error e => rw [h1] at h; simp [Except.bind] at h
    | ok s1 =>
      rw [h1] at h; dsimp only [Except.bind] at h
      cases h2 : stepModels d s1 with
      | error e => rw [h2] at h; simp [Except.bind] at h
      | ok s2 =>
        rw [h2] at h; dsimp only [Except.bind] at h
        cases h3 : stepSummary d s2 with
        | error e => rw [h3] at h; simp [Except.bind] at h
        | ok s3 =>
          rw [h3] at h; dsimp only [Except.bind] at h
          cases h4 : stepTraces d s3 with
          | error e => rw [h4] at h; simp [Except.bind] at h
          | ok s4 =>
            rw [h4] at h; dsimp only [Except.bind] at h
            cases h5 : stepTops d s4 with
            | error e => rw [h5] at h; simp [Except.bind] at h
            | ok s5 =>
              rw [h5] at h; dsimp only [Except.bind] at h
              cases h6 : stepNops d s5 with
              | error e => rw [h6] at h; simp [Except.bind] at h
              | ok s6 =>
                rw [h6] at h; dsimp only [Except.bind] at h
                exact ⟨s1, s2, s3, s4, s5, s6, rfl, h2, h3, h4, h5, h6, h⟩

/-- Witness for C4: a directory whose first three steps succeed but whose
trace list mismatches aborts the whole `load_state` with the trace step's
error. -/
theorem load_state_step_order_witness :
    sysFresh.load_state dirTracesBad = .error .shapeMismatch :=
  (load_state_step_order_first_failure dirTracesBad sysFresh).2.2.2.2.1
    (sysFresh.applySystemJson sysFresh.restorableAttrs)
    (sysFresh.applySystemJson sysFresh.restorableAttrs)
    { sysFresh.applySystemJson sysFresh.restorableAttrs with summary := sum0 }
    .shapeMismatch rfl rfl rfl rfl

theorem applySystemJson_network (s : System) (a : SysAttrs) :
    (s.applySystemJson a).network = s.network := rfl

theorem applySystemJson_pipeline (s : System) (a : SysAttrs) :
    (s.applySystemJson a).pipeline = s.pipeline := rfl

theorem applySystemJson_traces (s : System) (a : SysAttrs) :
    (s.applySystemJson a).traces = s.traces := rfl

theorem load_model_of_saved (m : ModelH) (mfs fs2 : List String)
    (hsave : saveModelFiles m = .ok mfs) (hsub : ∀ x ∈ mfs, x ∈ fs2) :
    load_model m fs2 = .ok () := by
  unfold saveModelFiles at hsave
  cases he : extsOf m.kind with
  | none => rw [he] at hsave; simp at hsave
  | some p =>
    obtain ⟨we, oe⟩ := p
    rw [he] at hsave
    simp at hsave
    have hw : weightsFile m we ∈ fs2 := hsub _ (by rw [← hsave]; simp)
    have ho : optimizerFile m oe ∈ fs2 := hsub _ (by rw [← hsave]; simp)
    unfold load_model
    rw [he]
    dsimp only
    rw [if_pos hw, if_pos ho]

theorem loadModels_of_saveModels (ms : List ModelH) (fs fs2 : List String)
    (hsave : saveModels ms = .ok fs) (hsub : ∀ x ∈ fs, x ∈ fs2) :
    loadModels ms fs2 = .ok () := by
  induction ms generalizing fs with
  | nil => rfl
  | cons m rest ih =>
    unfold saveModels at hsave
    cases hm : saveModelFiles m with
    | error e => rw [hm] at hsave; simp at hsave
    | ok mfs =>
      rw [hm] at hsave
      cases hr : saveModels rest with
      | error e => rw [hr] at hsave; simp at hsave
      | ok rest2 =>
        rw [hr] at hsave
        simp at hsave
        unfold loadModels
        rw [load_model_of_saved m mfs fs2 hm
          (fun x hx => hsub x (by rw [← hsave]; exact List.mem_append_left _ hx))]
        exact ih rest2 hr
          (fun x hx => hsub x (by rw [← hsave]; exact List.mem_append_right _ hx))

theorem alookup_isSome_of_mem_keys {β : Type} (l : List (String × β))
    (k : String) (h : k ∈ l.map Prod.fst) : (alookup k l).isSome = true := by
  induction l with
  | nil => simp at h
  | cons kv rest ih =>
    by_cases hk : k = kv.1
    · simp [alookup, hk]
    · rw [List.map_cons, List.mem_cons] at h
      rcases h with h | h
      · exact absurd h hk
      · simp [alookup, hk, ih h]

theorem ds_subset_check (origData freshData : List (String × Obj))
    (hkeys : freshData.map Prod.fst = origData.map Prod.fst) :
    (origData.filterMap
      (fun kv => if kv.2.hasGetState then some (kv.1, kv.2.getState) else none)).all
      (fun kv => (alookup kv.1 freshData).isSome) = true := by
  rw [List.all_eq_true]
  intro kv hmem
  rw [List.mem_filterMap] at hmem
  obtain ⟨x, hx, hfx⟩ := hmem
  have hk : kv.1 = x.1 := by
    by_cases hg : x.2.hasGetState
    · rw [if_pos hg] at hfx
      injection hfx with hfx
      rw [← hfx]
    · rw [if_neg hg] at hfx
      exact absurd hfx (by simp)
  have hmemk : kv.1 ∈ freshData.map Prod.fst := by
    rw [hkeys, hk]
    exact List.mem_map_of_mem Prod.fst hx
  simpa using alookup_isSome_of_mem_keys freshData kv.1 hmemk

/-- C1: saving a `System` and loading the checkpoint into a freshly
constructed `System` whose collaborators have the same shape (same model
list, same trace/tensor-op/numpy-op sequence lengths, same dataset keys)
succeeds and reproduces the original counters, mode, and metric-log
contents. -/
theorem save_state_load_state_roundtrip (orig fresh : System) (d : Directory)
    (hsave : orig.save_state = .ok d)
    (hmodels : fresh.network.models = orig.network.models)
    (htraces : fresh.traces.length = orig.traces.length)
    (htops : fresh.network.ops.length = orig.network.ops.length)
    (hnops : fresh.pipeline.ops.length = orig.pipeline.ops.length)
    (hdata : fresh.pipeline.data.map Prod.fst = orig.pipeline.data.map Prod.fst) :
    ∃ s2, fresh.load_state d = .ok s2 ∧
      s2.global_step = orig.global_step ∧
      s2.epoch_idx = orig.epoch_idx ∧
      s2.batch_idx = orig.batch_idx ∧
      s2.mode = orig.mode ∧
      s2.summary = orig.summary := by
  unfold System.save_state at hsave
  cases hsm : saveModels orig.network.models with
  | error e => rw [hsm] at hsave; simp at hsave
  | ok files =>
    rw [hsm] at hsave
    simp at hsave
    subst hsave
    unfold System.load_state
    dsimp only
    have hlm : loadModels
        (fresh.applySystemJson orig.restorableAttrs).network.models files = .ok () := by
      rw [applySystemJson_network, hmodels]
      exact loadModels_of_saveModels orig.network.models files files hsm
        (fun x hx => hx)
    rw [hlm]
    dsimp only
    have hlt : load_list (some (.list (orig.traces.map getStateOf)))
        (fresh.applySystemJson orig.restorableAttrs).traces =
        .ok (List.zipWith Obj.applyState
          (fresh.applySystemJson orig.restorableAttrs).traces
          (orig.traces.map getStateOf)) := by
      unfold load_list
      dsimp only
      rw [if_pos (by rw [List.length_map, applySystemJson_traces]; exact htraces.symm)]
    rw [hlt]
    dsimp only
    have hlo : load_list (some (.list (orig.network.ops.map getStateOf)))
        (fresh.applySystemJson orig.restorableAttrs).network.ops =
        .ok (List.zipWith Obj.applyState
          (fresh.applySystemJson orig.restorableAttrs).network.ops
          (orig.network.ops.map getStateOf)) := by
      unfold load_list
      dsimp only
      rw [if_pos (by rw [List.length_map, applySystemJson_network]; exact htops.symm)]
    rw [hlo]
    dsimp only
    have hln : load_list (some (.list (orig.pipeline.ops.map getStateOf)))
        (fresh.applySystemJson orig.restorableAttrs).pipeline.ops =
        .ok (List.zipWith Obj.applyState
          (fresh.applySystemJson orig.restorableAttrs).pipeline.ops
          (orig.pipeline.ops.map getStateOf)) := by
      unfold load_list
      dsimp only
      rw [if_pos (by rw [List.length_map, applySystemJson_pipeline]; exact hnops.symm)]
    rw [hln]
    dsimp only
    have hld : load_dict
        (some (.dict (orig.pipeline.data.filterMap
          (fun kv => if kv.2.hasGetState then some (kv.1, kv.2.getState) else none))))
        (fresh.applySystemJson orig.restorableAttrs).pipeline.data =
        .ok ((fresh.applySystemJson orig.restorableAttrs).pipeline.data.map
          (fun kv =>
            match alookup kv.1 (orig.pipeline.data.filterMap
              (fun kv => if kv.2.hasGetState then some (kv.1, kv.2.getState) else none)) with
            | some st => (kv.1, kv.2.applyState st)
            | none => kv)) := by
      unfold load_dict
      dsimp only
      rw [if_pos (by rw [applySystemJson_pipeline]
                     exact ds_subset_check orig.pipeline.data fresh.pipeline.data hdata)]
    rw [hld]
    dsimp only
    exact ⟨_, rfl, rfl, rfl, rfl, rfl, rfl⟩

/-- Witness for C1: saving `origEx` produces `dEx`; loading `dEx` into the
same-shaped `freshEx` restores the counters, mode, and metric log. -/
theorem save_state_load_state_roundtrip_witness :
    ∃ s2, freshEx.load_state dEx = .ok s2 ∧
      s2.global_step = origEx.global_step ∧
      s2.epoch_idx = origEx.epoch_idx ∧
      s2.batch_idx = origEx.batch_idx ∧
      s2.mode = origEx.mode ∧
      s2.summary = origEx.summary :=
  save_state_load_state_roundtrip origEx freshEx dEx rfl rfl rfl rfl rfl rfl

end FE
